import Mathlib

/-!
Verification of the concurrent gzip/JSON batch pipeline (`src/main.go`).

The development shallowly embeds the program:

* `CrossrefItem`, `Result` mirror the decoded JSON data types.
* `GzFileData` abstracts the observable behaviour of one file's byte
  stream as seen by `processGzFile`: the open can fail, the gzip header
  can be malformed, or the stream decodes to a list of `Result` batches
  optionally followed by a truncation (non-EOF decode error).
* `processGzFile` / `decodeLoop` / `processCrossrefItem` embed the
  per-file worker body; the second component of the value collects the
  sink invocations (one `logger.Printf` per item of each batch), in order.
* `runFiles` / `concurrentDecompressMultipleFiles` embed the coordinator
  with every submitted task's execution folded in at submission point:
  this describes the aggregate state once all submitted tasks have
  completed.
* `Step` / `Reachable` give the interleaved small-step semantics of the
  coordinator as written: the submission loop, asynchronous task
  execution by pool workers, and the final counter load
  (`atomic.LoadUint32`) which in the source occurs before the deferred
  `pool.Release()` and is not preceded by any join on in-flight tasks.
-/

/-- One decoded author entry (`Author` element of `CrossrefItem`). -/
structure CrossrefAuthor where
  Given : String
  Family : String
  deriving Repr, DecidableEq

/-- Mirror of the Go struct `CrossrefItem`. -/
structure CrossrefItem where
  DOI : String
  Title : List String
  ReferencesCount : Int
  Author : List CrossrefAuthor
  deriving Repr, DecidableEq

/-- Mirror of the Go struct `Result`: one decoded JSON batch. -/
structure Result where
  Items : List CrossrefItem
  deriving Repr, DecidableEq

/-- Observable behaviour of one file's byte stream under `processGzFile`:
`os.Open` fails, `gzip.NewReader` fails (malformed header), or the JSON
decoder yields `batches` and then either EOF (`truncated = false`) or a
non-EOF decode error (`truncated = true`, stream cut mid-record). -/
inductive GzFileData where
  | openFail
  | headerFail
  | stream (batches : List Result) (truncated : Bool)
  deriving Repr, DecidableEq

/-- The errors `processGzFile` returns; each carries the file path the Go
code wraps into the error message (`%w, filepath %s`). -/
inductive ProcError where
  | openError (path : String)
  | gzipReaderError (path : String)
  | decodeError (path : String)
  deriving Repr, DecidableEq

/-- One sink invocation: the record passed to `logger.Printf` inside
`processCrossrefItem`, together with the source file identity. -/
abbrev SinkCall := CrossrefItem × String

/-- Mirror of `processCrossrefItem`: one sink call per element of
`item.Items`, in order, each tagged with the source file path. -/
def processCrossrefItem (item : Result) (filePath : String) : List SinkCall :=
  item.Items.map (fun it => (it, filePath))

/-- The `for { decoder.Decode(&item) ... }` loop of `processGzFile`:
each successful decode sends the batch to `processCrossrefItem` and
increments `counter`; exhaustion is EOF (normal break) unless the stream
was truncated, in which case the decode error surfaces for the whole
file. `acc` carries the sink calls already made. -/
def decodeLoop (filePath : String) (batches : List Result) (truncated : Bool)
    (acc : List SinkCall) (counter : Int) : Except ProcError Unit × List SinkCall :=
  match batches with
  | [] =>
      if truncated then (.error (.decodeError filePath), acc)
      else (.ok (), acc)
  | item :: rest =>
      decodeLoop filePath rest truncated (acc ++ processCrossrefItem item filePath) (counter + 1)

/-- Mirror of `processGzFile`: open, gzip reader, then the decode loop.
Returns the Go function's error result paired with the list of sink
calls performed (already-made calls persist across a later error). -/
def processGzFile (data : GzFileData) (filePath : String) :
    Except ProcError Unit × List SinkCall :=
  match data with
  | .openFail => (.error (.openError filePath), [])
  | .headerFail => (.error (.gzipReaderError filePath), [])
  | .stream batches truncated => decodeLoop filePath batches truncated [] 0

/-- One discovered file as the coordinator sees it: its path, whether
`pool.Submit` accepts the task closure, and the stream behaviour its
task observes when it runs. -/
structure FileEntry where
  path : String
  submitOk : Bool
  data : GzFileData
  deriving Repr, DecidableEq

/-- True iff the task body for `f` returns an error
(`processGzFile` fails), which makes the worker increment `errCount`. -/
def taskFails (f : FileEntry) : Bool :=
  match (processGzFile f.data f.path).1 with
  | .ok _ => false
  | .error _ => true

/-- Contribution of one executed task to the shared counter. -/
def taskCost (f : FileEntry) : Nat :=
  if taskFails f then 1 else 0

/-- Number of corrupted files in a batch: those whose task fails to
open, decompress, or decode. -/
def corruptedCount (files : List FileEntry) : Nat :=
  (files.filter taskFails).length

/-- Coordinator-visible aggregate state of a run once all submitted
tasks have executed. -/
structure RunState where
  errCount : Nat
  submitAttempts : List String
  executed : List String
  sinkCalls : List SinkCall
  deriving Repr, DecidableEq

/-- One iteration of the submission loop, with the task's execution
folded in: a rejected submission increments the counter and moves on; an
accepted one runs `processGzFile`, incrementing the counter iff it
errors. -/
def runStep (st : RunState) (f : FileEntry) : RunState :=
  if f.submitOk then
    let r := processGzFile f.data f.path
    { errCount := st.errCount + (match r.1 with | .ok _ => 0 | .error _ => 1)
      submitAttempts := st.submitAttempts ++ [f.path]
      executed := st.executed ++ [f.path]
      sinkCalls := st.sinkCalls ++ r.2 }
  else
    { st with
      errCount := st.errCount + 1
      submitAttempts := st.submitAttempts ++ [f.path] }

/-- The whole submission loop over the discovered files, all tasks
joined. -/
def runFiles (files : List FileEntry) : RunState :=
  files.foldl runStep ⟨0, [], [], []⟩

/-- Errors `concurrentDecompressMultipleFiles` returns; the first two
wrap the underlying error string as the Go code wraps with `%w`. -/
inductive RunError where
  | findGzFilesError (inner : String)
  | poolCreationError (inner : String)
  | decompressionErrors (count : Nat)
  deriving Repr, DecidableEq

/-- Observables of one whole run. -/
structure RunLog where
  poolCreated : Bool
  submitAttempts : List String
  executed : List String
  sinkCalls : List SinkCall
  errCount : Nat
  deriving Repr, DecidableEq

/-- Mirror of `concurrentDecompressMultipleFiles`, with the results of
the external collaborators supplied as inputs: `discovery` is the
outcome of `findGzFiles` (error string or discovered list) and `poolErr`
the outcome of `ants.NewPool` (`some e` = creation failed). The final
counter comparison is the one at the end of the Go function; `runFiles`
folds in task execution, so this describes the aggregate once all
submitted tasks completed — `Step`/`Reachable` below capture the
source's actual (weaker) temporal behaviour around that final load. -/
def concurrentDecompressMultipleFiles (discovery : Except String (List FileEntry))
    (poolErr : Option String) : Except RunError Unit × RunLog :=
  match discovery with
  | .error e => (.error (.findGzFilesError e), ⟨false, [], [], [], 0⟩)
  | .ok files =>
      match poolErr with
      | some e => (.error (.poolCreationError e), ⟨false, [], [], [], 0⟩)
      | none =>
          let st := runFiles files
          let log : RunLog := ⟨true, st.submitAttempts, st.executed, st.sinkCalls, st.errCount⟩
          if st.errCount > 0 then (.error (.decompressionErrors st.errCount), log)
          else (.ok (), log)

/-- Interleaved state of one run of the coordinator loop: files not yet
reached by the loop, tasks accepted by the pool but not yet executed,
the shared atomic counter, the number of `pool.Submit` calls issued so
far (the spec's `totalTasksSubmitted`), and `reported` — `none` until
the coordinator performs the final `atomic.LoadUint32`, then the value
it loaded (which fixes the function's return value). -/
structure CState where
  queue : List FileEntry
  pending : List FileEntry
  errCount : Nat
  attempts : Nat
  reported : Option Nat
  deriving Repr, DecidableEq

/-- Small-step semantics of the coordinator as written, with pool
capacity `W`:

* `submit_ok`/`submit_fail` — one iteration of the loop: `pool.Submit`
  either hands the closure to a worker (possible only below capacity;
  ants blocks the submitter otherwise) or rejects it, in which case the
  coordinator increments the counter itself and moves on;
* `exec` — a worker runs a previously accepted task to completion,
  adding `taskCost` to the counter; the source contains no join between
  the loop and the final load, and the deferred `pool.Release()` runs
  only after the return value is computed, so workers may still execute
  after `load`;
* `load` — after the loop, the coordinator reads the counter
  (`atomic.LoadUint32`) and the read value fixes the aggregate report. -/
inductive Step (W : Nat) : CState → CState → Prop where
  | submit_ok (f : FileEntry) (q p : List FileEntry) (e a : Nat) :
      f.submitOk = true → p.length < W →
      Step W ⟨f :: q, p, e, a, none⟩ ⟨q, p ++ [f], e, a + 1, none⟩
  | submit_fail (f : FileEntry) (q p : List FileEntry) (e a : Nat) :
      f.submitOk = false →
      Step W ⟨f :: q, p, e, a, none⟩ ⟨q, p, e + 1, a + 1, none⟩
  | exec (f : FileEntry) (q p₁ p₂ : List FileEntry) (e a : Nat) (r : Option Nat) :
      Step W ⟨q, p₁ ++ f :: p₂, e, a, r⟩ ⟨q, p₁ ++ p₂, e + taskCost f, a, r⟩
  | load (p : List FileEntry) (e a : Nat) :
      Step W ⟨[], p, e, a, none⟩ ⟨[], p, e, a, some e⟩

/-- Initial state of a run over `files`. -/
def initState (files : List FileEntry) : CState :=
  ⟨files, [], 0, 0, none⟩

/-- States the run over `files` can reach under pool capacity `W`. -/
def Reachable (W : Nat) (files : List FileEntry) (s : CState) : Prop :=
  Relation.ReflTransGen (Step W) (initState files) s

/-- The inductive invariant behind `failedTaskCount ≤ totalTasksSubmitted`:
pending tasks have not yet contributed to the counter. -/
def CounterInv (s : CState) : Prop :=
  s.errCount + s.pending.length ≤ s.attempts

/-- The counter contribution of one file in a completed run: `1` for a
rejected submission, otherwise the task's own cost. -/
def fileCost (f : FileEntry) : Nat :=
  if f.submitOk then taskCost f else 1

/-- Total number of records carried by the batches of one stream. -/
def totalRecords (bs : List Result) : Nat :=
  (bs.map (fun b => b.Items.length)).sum

/-- A discovered file whose task fails (its open errors): the single
corrupted file (`F = 1`) of the counterexample run. -/
def badFile : FileEntry :=
  ⟨"a.gz", true, .openFail⟩

/-! ### Helper lemmas -/

lemma taskCost_le_one (f : FileEntry) : taskCost f ≤ 1 := by
  unfold taskCost
  split <;> omega

lemma step_preserves_counterInv {W : Nat} {s s' : CState}
    (h : Step W s s') (hs : CounterInv s) : CounterInv s' := by
  cases h with
  | submit_ok f q p e a hf hW =>
      simp only [CounterInv, List.length_append, List.length_cons,
        List.length_nil] at hs ⊢
      omega
  | submit_fail f q p e a hf =>
      simp only [CounterInv] at hs ⊢
      omega
  | exec f q p₁ p₂ e a r =>
      have hc := taskCost_le_one f
      simp only [CounterInv, List.length_append, List.length_cons] at hs ⊢
      omega
  | load p e a =>
      exact hs

lemma reachable_counterInv {W : Nat} {files : List FileEntry} {s : CState}
    (h : Reachable W files s) : CounterInv s := by
  induction h with
  | refl => simp [CounterInv, initState]
  | tail _ hstep ih => exact step_preserves_counterInv hstep ih

lemma decodeLoop_eq (p : String) (bs : List Result) (t : Bool)
    (acc : List SinkCall) (c : Int) :
    decodeLoop p bs t acc c =
      ((if t then .error (.decodeError p) else .ok ()),
        acc ++ (bs.flatMap (fun b => b.Items)).map (fun it => (it, p))) := by
  induction bs generalizing acc c with
  | nil => cases t <;> simp [decodeLoop]
  | cons b rest ih =>
      simp [decodeLoop, ih, processCrossrefItem, List.flatMap_cons, List.append_assoc]

lemma runStep_errCount (st : RunState) (f : FileEntry) :
    (runStep st f).errCount = st.errCount + fileCost f := by
  unfold runStep fileCost taskCost taskFails
  rcases hf : f.submitOk <;> rcases hr : (processGzFile f.data f.path).1 <;>
    simp [hf, hr]

lemma runStep_submitAttempts (st : RunState) (f : FileEntry) :
    (runStep st f).submitAttempts = st.submitAttempts ++ [f.path] := by
  unfold runStep
  rcases hf : f.submitOk <;> simp [hf]

lemma foldl_runStep_errCount (fs : List FileEntry) (st : RunState) :
    (fs.foldl runStep st).errCount = st.errCount + (fs.map fileCost).sum := by
  induction fs generalizing st with
  | nil => simp
  | cons f rest ih =>
      simp only [List.foldl_cons, List.map_cons, List.sum_cons, ih, runStep_errCount]
      omega

lemma foldl_runStep_submitAttempts (fs : List FileEntry) (st : RunState) :
    (fs.foldl runStep st).submitAttempts
      = st.submitAttempts ++ fs.map (fun f => f.path) := by
  induction fs generalizing st with
  | nil => simp
  | cons f rest ih =>
      simp [List.foldl_cons, ih, runStep_submitAttempts]

lemma runFiles_errCount (fs : List FileEntry) :
    (runFiles fs).errCount = (fs.map fileCost).sum := by
  simpa using foldl_runStep_errCount fs ⟨0, [], [], []⟩

lemma race_step1 : Step 1 (initState [badFile]) ⟨[], [badFile], 0, 1, none⟩ := by
  show Step 1 ⟨[badFile], [], 0, 0, none⟩ ⟨[], [badFile], 0, 1, none⟩
  exact Step.submit_ok badFile [] [] 0 0 rfl (by simp)

lemma race_step2 : Step 1 ⟨[], [badFile], 0, 1, none⟩ ⟨[], [badFile], 0, 1, some 0⟩ :=
  Step.load [badFile] 0 1

lemma race_step3 : Step 1 ⟨[], [badFile], 0, 1, some 0⟩ ⟨[], [], 1, 1, some 0⟩ :=
  Step.exec badFile [] [] [] 0 1 (some 0)

/-! ### Claim theorems -/

/-- C1: refuted as the code stands. With one discovered file whose open
fails (`N = 1`, `F = 1`) and pool size `1`, the coordinator can reach a
state where the aggregate report was fixed at `0` failures (the final
counter load happened before the worker ran the task) and the run then
completes with `errCount = 1`: the reported failure count is `0 ≠ F`.
The source loads `errCount` before the deferred `pool.Release()` and
never joins in-flight tasks, so this interleaving is legal. -/
theorem aggregate_report_can_undercount :
    Reachable 1 [badFile] ⟨[], [], 1, 1, some 0⟩ ∧ corruptedCount [badFile] = 1 := by
  refine ⟨?_, rfl⟩
  exact Relation.ReflTransGen.tail
    (Relation.ReflTransGen.tail (Relation.ReflTransGen.single race_step1) race_step2)
    race_step3

/-- C2: refuted as the code stands. A state is reachable in which the
final counter value used for the aggregate report is already fixed
(`reported = some 0`) while a submitted task is still pending execution:
the code reads the counter before the deferred `pool.Release()` runs and
without waiting for in-flight tasks. -/
theorem counter_loaded_before_task_completion :
    Reachable 1 [badFile] ⟨[], [badFile], 0, 1, some 0⟩ ∧
    (CState.mk [] [badFile] 0 1 (some 0)).reported = some 0 ∧
    (CState.mk [] [badFile] 0 1 (some 0)).pending ≠ [] := by
  refine ⟨?_, rfl, by simp⟩
  exact Relation.ReflTransGen.tail (Relation.ReflTransGen.single race_step1) race_step2

/-- C3: for every valid compressed stream, `processGzFile` succeeds and
the sink is invoked exactly once per record, in the order the records
appear across the decoded batches of the stream. -/
theorem valid_stream_sink_calls (bs : List Result) (p : String) :
    processGzFile (.stream bs false) p =
      (.ok (), (bs.flatMap (fun b => b.Items)).map (fun it => (it, p))) := by
  simp [processGzFile, decodeLoop_eq]

/-- C4: when file discovery fails, the coordinator returns the wrapped
discovery error immediately: no pool is created, nothing is submitted,
executed, or sent to the sink, and the failure counter is `0`. -/
theorem discovery_failure_aborts_run (e : String) (poolErr : Option String) :
    concurrentDecompressMultipleFiles (.error e) poolErr =
      (.error (.findGzFilesError e), ⟨false, [], [], [], 0⟩) :=
  rfl

/-- C5: a file whose submission is rejected contributes exactly one
increment to the failure counter, and the coordinator still attempts
every file of the batch (submission order preserved): a submission
failure never aborts the batch. -/
theorem submission_failure_isolated (pre post : List FileEntry) (f : FileEntry)
    (h : f.submitOk = false) :
    (runFiles (pre ++ f :: post)).submitAttempts
      = (pre ++ f :: post).map (fun g => g.path) ∧
    (runFiles (pre ++ f :: post)).errCount
      = (runFiles pre).errCount + 1 + (runFiles post).errCount := by
  constructor
  · rw [runFiles, foldl_runStep_submitAttempts]
    simp
  · simp [runFiles_errCount, fileCost, h]
    omega

/-- Witness for C5 at a concrete input: a single file whose submission
is rejected. -/
theorem submission_failure_isolated_witness :
    (runFiles [⟨"b.gz", false, .stream [] false⟩]).submitAttempts = ["b.gz"] ∧
    (runFiles [⟨"b.gz", false, .stream [] false⟩]).errCount
      = (runFiles []).errCount + 1 + (runFiles []).errCount := by
  have h := submission_failure_isolated [] [] ⟨"b.gz", false, .stream [] false⟩ rfl
  simpa using h

/-- C6: a valid stream with zero records yields zero sink calls,
terminates normally, and the file counts as a success: no
failure-counter increment in a run over it. -/
theorem zero_records_success (bs : List Result) (p : String)
    (h : totalRecords bs = 0) :
    processGzFile (.stream bs false) p = (.ok (), []) ∧
    (runFiles [⟨p, true, .stream bs false⟩]).errCount = 0 := by
  have hflat : bs.flatMap (fun b => b.Items) = [] := by
    rw [← List.length_eq_zero]
    simpa [totalRecords, List.length_flatMap] using h
  have hok : processGzFile (.stream bs false) p = (.ok (), []) := by
    simp [processGzFile, decodeLoop_eq, hflat]
  refine ⟨hok, ?_⟩
  simp [runFiles_errCount, fileCost, taskCost, taskFails, hok]

/-- Witness for C6 at a concrete input: one batch with an empty record
list. -/
theorem zero_records_success_witness :
    processGzFile (.stream [⟨[]⟩] false) "b.gz" = (.ok (), []) ∧
    (runFiles [⟨"b.gz", true, .stream [⟨[]⟩] false⟩]).errCount = 0 :=
  zero_records_success [⟨[]⟩] "b.gz" rfl

/-- C7: a malformed compression header makes `processGzFile` fail
immediately with an error carrying the file's identity, before any
record is decoded and before the sink is invoked. -/
theorem malformed_header_immediate_failure (p : String) :
    processGzFile .headerFail p = (.error (.gzipReaderError p), []) :=
  rfl

/-- C8: a stream truncated mid-record fails the whole file: the task
returns the decode error wrapped with the file identity, the run over
that file increments the counter exactly once, and the aggregate result
reports the file as failed — there is no partial-success state. -/
theorem truncated_stream_whole_file_failure (bs : List Result) (p : String) :
    (processGzFile (.stream bs true) p).1 = .error (.decodeError p) ∧
    (runFiles [⟨p, true, .stream bs true⟩]).errCount = 1 ∧
    (concurrentDecompressMultipleFiles (.ok [⟨p, true, .stream bs true⟩]) none).1
      = .error (.decompressionErrors 1) := by
  have h1 : (processGzFile (.stream bs true) p).1 = .error (.decodeError p) := by
    simp [processGzFile, decodeLoop_eq]
  have h2 : (runFiles [⟨p, true, .stream bs true⟩]).errCount = 1 := by
    simp [runFiles_errCount, fileCost, taskCost, taskFails, h1]
  refine ⟨h1, h2, ?_⟩
  simp [concurrentDecompressMultipleFiles, h2]

/-- C9: in every reachable state of a run, under any pool capacity, the
shared failure counter never exceeds the number of submission attempts
issued so far: `failedTaskCount ≤ totalTasksSubmitted` at every point of
observation. -/
theorem failed_le_submitted (W : Nat) (files : List FileEntry) (s : CState)
    (h : Reachable W files s) : s.errCount ≤ s.attempts := by
  have hinv := reachable_counterInv h
  unfold CounterInv at hinv
  omega

/-- Witness for C9 at a concrete reachable state: the initial state of
the empty run. -/
theorem failed_le_submitted_witness :
    (initState []).errCount ≤ (initState []).attempts :=
  failed_le_submitted 1 [] (initState []) Relation.ReflTransGen.refl

/-- C10: when discovery succeeds but pool construction fails, the
coordinator returns the wrapped pool-creation error with the counter at
zero and no file submitted, executed, or decoded. -/
theorem pool_creation_failure_aborts_run (e : String) (files : List FileEntry) :
    concurrentDecompressMultipleFiles (.ok files) (some e) =
      (.error (.poolCreationError e), ⟨false, [], [], [], 0⟩) :=
  rfl
